import Mathlib

/-!
Verification development for the `work_day_bot` repository (daily attendance
check bot).  The repository contains three variants of the same script:
`work_day_mail_bot_headless.py` (the most elaborate classifier),
`work_day.py` and `work_day_bot.py`.  This file gives a shallow embedding of
the attendance classification core of each variant, of the robust time/date
parsers, and of the column-resolution front end, and settles the spec claims
against them.

Conventions of the embedding:
* wall-clock times are seconds since midnight (`Nat`);
* Python `None` becomes `Option.none`; modern Python `datetime.time` values
  are always truthy, so `if ls:` on a time cell is `Option.isSome`;
* Python string formatting is reproduced with explicit `++`;
* code that can raise is embedded in `Except PyError`.
-/

/-- Build a second-of-day value from hours, minutes, seconds. -/
def hms (h m s : Nat) : Nat := h * 3600 + m * 60 + s

/-- Two-digit zero-padded rendering of a number below 100 (Python `%02d`). -/
def pad2 (n : Nat) : String := (if n < 10 then "0" else "") ++ toString n

/-- Python `time.strftime("%H:%M")`. -/
def fmtHM (t : Nat) : String := pad2 (t / 3600) ++ ":" ++ pad2 (t % 3600 / 60)

/-- Python `time.strftime("%H:%M:%S")`. -/
def fmtHMS (t : Nat) : String :=
  pad2 (t / 3600) ++ ":" ++ pad2 (t % 3600 / 60) ++ ":" ++ pad2 (t % 60)

/-- Python `", ".join`-style joining (`str.join`). -/
def joinWith (sep : String) : List String → String
  | [] => ""
  | [x] => x
  | x :: y :: xs => x ++ sep ++ joinWith sep (y :: xs)

/-- Insert a string into an ascending list (used to model Python `sorted`). -/
def insertStr (x : String) : List String → List String
  | [] => [x]
  | y :: ys => if x < y then x :: y :: ys else y :: insertStr x ys

/-- Python `sorted(...)` on a list of strings (insertion sort; `String <` is
code-point lexicographic, matching Python). -/
def sortStr (l : List String) : List String := l.foldr insertStr []

/-- Python `sorted(list(set(...)))`. -/
def sortedDedup (l : List String) : List String := sortStr l.dedup

/-- `leadsWith pat l` : `pat` is an initial segment of `l`. -/
def leadsWith : List Char → List Char → Bool
  | [], _ => true
  | _ :: _, [] => false
  | a :: as, b :: bs => a = b && leadsWith as bs

/-- Python `str.split(sep)` for a one-character separator (empty pieces are
kept, as in Python and in `String.splitOn`). -/
def chSplit (c : Char) : List Char → List (List Char)
  | [] => [[]]
  | a :: as =>
    let r := chSplit c as
    if a = c then [] :: r
    else
      match r with
      | [] => [[a]]
      | h :: t => (a :: h) :: t

/-- `str.split` lifted to `String`. -/
def splitStr (c : Char) (s : String) : List String :=
  (chSplit c s.data).map fun l => String.mk l

/-- Python `str.strip()` (whitespace trim). -/
def trimStr (s : String) : String :=
  String.mk (((s.data.dropWhile Char.isWhitespace).reverse.dropWhile Char.isWhitespace).reverse)

/-- `occursIn pat l` : `pat` occurs contiguously inside `l` (substring test,
used to state what a diagnostic string does or does not mention). -/
def occursIn (pat : List Char) : List Char → Bool
  | [] => pat.isEmpty
  | b :: bs => leadsWith pat (b :: bs) || occursIn pat bs

/-! ## Constants of `work_day_mail_bot_headless.py` (lines 124-132) -/

def LEAVE_ACTIVITY_TYPES : List String :=
  ["법정휴가", "보상휴가", "출장", "교육", "공가", "병가", "경조휴가", "특별휴가"]

def FULL_DAY_REASONS : List String :=
  ["연차", "출산휴가", "출산전후휴가", "청원휴가", "가족돌봄휴가", "특별휴가",
   "공가", "공상", "예비군훈련", "민방위훈련", "공로휴가", "병가"]

def MORNING_HALF_LEAVE_REASON : String := "오전반차"

def AFTERNOON_HALF_LEAVE_REASON : String := "오후반차"

def NORMAL_WORK_TYPE : String := "출퇴근"

def STD_WORK_START_TIME : Nat := hms 9 0 0

def STD_WORK_END_TIME : Nat := hms 18 0 0

def STD_LUNCH_START_TIME : Nat := hms 12 0 0

def STD_LUNCH_END_TIME : Nat := hms 13 0 0

def STD_MORNING_LEAVE_WORK_START : Nat := hms 14 0 0

def STD_AFTERNOON_LEAVE_WORK_END : Nat := hms 14 0 0

/-! ## Data model -/

/-- One normalized spreadsheet row for one employee on the target date, after
the `parse_*_robust` passes: the `유형`/`구분` labels and the four parsed time
cells, plus the raw clock strings kept for display. -/
structure Row where
  attType : String
  attCat : String
  clockIn : Option Nat
  clockOut : Option Nat
  leaveStart : Option Nat
  leaveEnd : Option Nat
  rawIn : String
  rawOut : String
deriving DecidableEq

/-- A collected leave entry (headless variant, line 521):
`{'type': att_type, 'category': att_cat, 'start': l_start, 'end': l_end, 'desc': desc}`. -/
structure LeaveEntry where
  ltype : String
  lcat : String
  lstart : Option Nat
  lend : Option Nat
  ldesc : String
deriving DecidableEq

/-- The retained attendance data for one employee
(`attendance_data` dict, headless line 513). -/
structure AttRec where
  clockIn : Option Nat
  clockOut : Option Nat
  rawIn : String
  rawOut : String
deriving DecidableEq

/-- The per-employee result record (headless `employee_statuses[...]`,
lines 574-586; `status` is kept as the boolean `isExcluded`). -/
structure EmployeeStatus where
  isExcluded : Bool
  coversMorning : Bool
  coversAfternoon : Bool
  tookLeave : Bool
  leaveDetails : String
  hasClockIn : Bool
  hasClockOut : Bool
  inTimeStr : String
  outTimeStr : String
  issues : List String
deriving DecidableEq

/-! ## Headless per-employee classifier
(`analyze_attendance` inner loop, `work_day_mail_bot_headless.py` 509-673) -/

/-- Leave description of a leave row (headless line 520):
`f"{att_type} ({att_cat})" if att_cat and att_cat != '-' else att_type`. -/
def mkLeave (r : Row) : LeaveEntry :=
  { ltype := r.attType, lcat := r.attCat, lstart := r.leaveStart, lend := r.leaveEnd,
    ldesc := if r.attCat ≠ "" ∧ r.attCat ≠ "-"
      then r.attType ++ " (" ++ r.attCat ++ ")" else r.attType }

/-- One step of the row-collection loop (headless lines 514-528): leave rows
are accumulated; for attendance rows the first non-null clock-in and the last
non-null clock-out are retained. -/
def hlStep (acc : List LeaveEntry × AttRec) (r : Row) : List LeaveEntry × AttRec :=
  let ls := if r.attType ∈ LEAVE_ACTIVITY_TYPES then acc.1 ++ [mkLeave r] else acc.1
  let att :=
    if r.attType = NORMAL_WORK_TYPE then
      let a := if r.clockIn.isSome ∧ acc.2.clockIn = none
        then { acc.2 with clockIn := r.clockIn, rawIn := r.rawIn } else acc.2
      if r.clockOut.isSome
        then { a with clockOut := r.clockOut, rawOut := r.rawOut } else a
    else acc.2
  (ls, att)

/-- Collection of all leave entries and the attendance record for one
employee's rows (headless lines 513-528). -/
def hlCollect (rows : List Row) : List LeaveEntry × AttRec :=
  rows.foldl hlStep ([], ⟨none, none, "", ""⟩)

/-- Morning/afternoon coverage of a single leave entry (headless lines
542-552).  Branch order follows the `elif` chain: explicit morning half-day
label; explicit afternoon half-day label; full-day reason (unless its times
are strictly inside the workday); explicit time span; open-ended business
trip (`출장` with a start but no end). -/
def entryCover (l : LeaveEntry) : Bool × Bool :=
  if l.lcat = MORNING_HALF_LEAVE_REASON then (true, false)
  else if l.lcat = AFTERNOON_HALF_LEAVE_REASON then (false, true)
  else if l.lcat ∈ FULL_DAY_REASONS then
    (match l.lstart, l.lend with
     | some ls, some le =>
       if ls > STD_WORK_START_TIME ∨ le < STD_WORK_END_TIME then (false, false)
       else (true, true)
     | _, _ => (true, true))
  else
    match l.lstart, l.lend with
    | some ls, some le =>
      (decide (ls ≤ STD_WORK_START_TIME) && decide (le ≥ STD_LUNCH_START_TIME),
       decide (ls < STD_WORK_END_TIME) && decide (le ≥ STD_LUNCH_END_TIME))
    | some _, none => if l.ltype = "출장" then (true, true) else (false, false)
    | _, _ => (false, false)

/-- Accumulated `covers_morn` flag (OR over all leave entries, lines 554). -/
def hlCoversMorn (leaves : List LeaveEntry) : Bool := leaves.any fun l => (entryCover l).1

/-- Accumulated `covers_aft` flag (OR over all leave entries, line 555). -/
def hlCoversAft (leaves : List LeaveEntry) : Bool := leaves.any fun l => (entryCover l).2

/-- `is_spec_morn_half` (set at line 542 when any entry has the explicit
morning half-day category). -/
def hlSpecMorn (leaves : List LeaveEntry) : Bool :=
  leaves.any fun l => l.lcat = MORNING_HALF_LEAVE_REASON

/-- `is_spec_aft_half` (line 543). -/
def hlSpecAft (leaves : List LeaveEntry) : Bool :=
  leaves.any fun l => l.lcat = AFTERNOON_HALF_LEAVE_REASON

/-- `min_l_start_actual` (initialized to work end, updated at line 556). -/
def hlMinStart (leaves : List LeaveEntry) : Nat :=
  leaves.foldl (fun acc l => match l.lstart with
    | some v => if v < acc then v else acc
    | none => acc) STD_WORK_END_TIME

/-- `max_l_end_actual` (initialized to work start, updated at line 557). -/
def hlMaxEnd (leaves : List LeaveEntry) : Nat :=
  leaves.foldl (fun acc l => match l.lend with
    | some v => if v > acc then v else acc
    | none => acc) STD_WORK_START_TIME

/-- `leave_descs` set, rendered as Python `sorted(list(...))` (line 562). -/
def hlDescs (leaves : List LeaveEntry) : List String :=
  sortedDedup (leaves.map (·.ldesc))

/-- `is_full_day_type` (line 565). -/
def hlFullDayType (leaves : List LeaveEntry) : Bool :=
  leaves.any fun l => l.lcat ∈ FULL_DAY_REASONS || l.ltype = "출장"

/-- `leave_detail_for_report` (lines 559-571). -/
def hlLeaveDetail (leaves : List LeaveEntry) : String :=
  if hlCoversMorn leaves && hlCoversAft leaves then
    joinWith " + " (hlDescs leaves) ++
      (if hlFullDayType leaves then " (종일)"
       else if hlMinStart leaves ≠ STD_WORK_END_TIME ∧ hlMaxEnd leaves ≠ STD_WORK_START_TIME
       then " (" ++ fmtHM (hlMinStart leaves) ++ " - " ++ fmtHM (hlMaxEnd leaves) ++ ")"
       else "")
  else if leaves ≠ [] then joinWith " + " (hlDescs leaves)
  else ""

/-- Expected work-start time for a non-excluded employee (lines 598-600). -/
def hlExpStart (leaves : List LeaveEntry) : Nat :=
  if hlSpecMorn leaves then STD_MORNING_LEAVE_WORK_START
  else if hlCoversMorn leaves then STD_LUNCH_END_TIME
  else STD_WORK_START_TIME

/-- Scan for the earliest afternoon-covering leave start (lines 605-615):
returns the minimum together with the `found_afternoon_start` flag. -/
def hlAfternoonScan (leaves : List LeaveEntry) : Nat × Bool :=
  leaves.foldl (fun acc l =>
    match l.lstart with
    | some ls =>
      if ls ≥ STD_LUNCH_START_TIME then
        let cov : Bool :=
          l.lcat = AFTERNOON_HALF_LEAVE_REASON ||
          l.lcat ∈ FULL_DAY_REASONS ||
          (decide (ls < STD_WORK_END_TIME) &&
            (match l.lend with | some le => decide (le ≥ STD_LUNCH_END_TIME) | none => false)) ||
          (decide (ls < STD_WORK_END_TIME) && l.lend = none && l.ltype = "출장")
        if cov && decide (ls < acc.1) then (ls, true) else acc
      else acc
    | none => acc) (STD_WORK_END_TIME, false)

/-- Expected work-end time for a non-excluded employee (lines 602-619). -/
def hlExpEnd (leaves : List LeaveEntry) : Nat :=
  if hlSpecAft leaves then STD_AFTERNOON_LEAVE_WORK_END
  else if hlCoversAft leaves then
    let p := hlAfternoonScan leaves
    if p.2 ∧ p.1 < STD_WORK_END_TIME then p.1
    else if ¬ p.2 then STD_LUNCH_START_TIME
    else STD_WORK_END_TIME
  else STD_WORK_END_TIME

/-- `issue_type_flags` for a non-excluded employee (lines 627-653). -/
def hlIssues (leaves : List LeaveEntry) (att : AttRec) : List String :=
  (match att.clockIn with
   | some actIn => if actIn > hlExpStart leaves then ["지각"] else []
   | none => if ¬ hlCoversMorn leaves then ["출근 기록 없음"] else []) ++
  (match att.clockOut with
   | some actOut =>
     if ¬ hlCoversAft leaves ∧ actOut < STD_WORK_END_TIME then ["조퇴"]
     else if hlCoversAft leaves ∧ actOut < hlExpEnd leaves then ["조퇴"]
     else []
   | none =>
     if ¬ hlCoversAft leaves ∧ att.clockIn.isSome then ["퇴근 기록 없음"] else [])

/-- `in_stat` report string (line 660). -/
def hlInStat (leaves : List LeaveEntry) (att : AttRec) : String :=
  match att.clockIn with
  | some v => fmtHMS v
  | none => if hlCoversMorn leaves then "오전휴가" else "기록 없음"

/-- `out_stat` report string (lines 661-670). -/
def hlOutStat (leaves : List LeaveEntry) (att : AttRec) : String :=
  match att.clockOut with
  | some v => fmtHMS v
  | none =>
    if hlCoversAft leaves then "오후휴가(" ++ fmtHM (hlExpEnd leaves) ++ "부터)"
    else if att.clockIn.isSome then "기록 없음"
    else if ¬ hlCoversMorn leaves then "미출근"
    else "-"

/-- The per-employee classification (headless lines 530-673) on the collected
leave entries and attendance record.  An excluded employee keeps the record's
initial field values (`has_clock_in`/`has_clock_out` false, `issue_types`
empty, time strings `"-"`) because the attendance analysis block is guarded
by `if not is_excluded`. -/
def classifyCore (leaves : List LeaveEntry) (att : AttRec) : EmployeeStatus :=
  let cm := hlCoversMorn leaves
  let ca := hlCoversAft leaves
  if cm && ca then
    { isExcluded := true, coversMorning := cm, coversAfternoon := ca,
      tookLeave := !leaves.isEmpty, leaveDetails := hlLeaveDetail leaves,
      hasClockIn := false, hasClockOut := false,
      inTimeStr := "-", outTimeStr := "-", issues := [] }
  else
    { isExcluded := false, coversMorning := cm, coversAfternoon := ca,
      tookLeave := !leaves.isEmpty, leaveDetails := hlLeaveDetail leaves,
      hasClockIn := att.clockIn.isSome, hasClockOut := att.clockOut.isSome,
      inTimeStr := hlInStat leaves att, outTimeStr := hlOutStat leaves att,
      issues := hlIssues leaves att }

/-- Full headless classification of one employee's rows for the target date. -/
def classifyHeadless (rows : List Row) : EmployeeStatus :=
  let c := hlCollect rows
  classifyCore c.1 c.2

/-! ## Headless summary counts (lines 676-692) -/

def smTarget (sts : List EmployeeStatus) : Nat := sts.countP fun s => !s.isExcluded

def smExcluded (sts : List EmployeeStatus) : Nat := sts.countP fun s => s.isExcluded

def smClockedIn (sts : List EmployeeStatus) : Nat :=
  sts.countP fun s => !s.isExcluded && s.hasClockIn

def smMissingIn (sts : List EmployeeStatus) : Nat :=
  sts.countP fun s => !s.isExcluded && !s.coversMorning && !s.hasClockIn

def smClockedOut (sts : List EmployeeStatus) : Nat :=
  sts.countP fun s => !s.isExcluded && s.hasClockOut

def smMissingOut (sts : List EmployeeStatus) : Nat :=
  sts.countP fun s =>
    !s.isExcluded && (s.hasClockIn || s.coversMorning) && !s.coversAfternoon && !s.hasClockOut

/-! ## `work_day.py` per-employee classifier
(`analyze_attendance`, lines 673-812)

Constants (lines 50-76): the full-day leave vocabularies differ slightly from
the headless file; the standard times are the same 09:00/18:00 with lunch
12:00-13:00. -/

def FULL_DAY_LEAVE_REASONS : List String :=
  ["연차", "보건휴가", "출산휴가", "출산전후휴가", "청원휴가", "가족돌봄휴가", "특별휴가",
   "공가", "공상", "예비군훈련", "민방위훈련", "공로휴가", "병가", "보상휴가"]

def FULL_DAY_LEAVE_TYPES : List String := ["법정휴가", "병가/휴직", "보상휴가", "공가"]

def ATTENDANCE_TYPE : String := "출퇴근"

/-- A collected leave of the `work_day.py` loop (line 701): `type` holds
`leave_category if leave_category else leave_type`. -/
structure WLeave where
  typ : String
  lstart : Option Nat
  lend : Option Nat
deriving DecidableEq

/-- `is_leave_row` (lines 693-695). -/
def wdIsLeaveRow (r : Row) : Bool :=
  r.attType ∈ FULL_DAY_LEAVE_TYPES || r.attCat ∈ FULL_DAY_LEAVE_REASONS ||
  r.attCat = MORNING_HALF_LEAVE_REASON || r.attCat = AFTERNOON_HALF_LEAVE_REASON

/-- The leave entry contributed by one row, if any (lines 697-705): only rows
recognized as leave rows with a non-empty description are collected. -/
def wdLeaveOf (r : Row) : Option WLeave :=
  if wdIsLeaveRow r then
    let d := if r.attCat ≠ "" then r.attCat else r.attType
    if d ≠ "" then some ⟨d, r.leaveStart, r.leaveEnd⟩ else none
  else none

/-- The single-entry full-day test that triggers the early `break`
(lines 707-713): both times present and spanning `[09:00, 18:00]`. -/
def wdFullSpan (l : WLeave) : Bool :=
  match l.lstart, l.lend with
  | some a, some b => decide (a ≤ STD_WORK_START_TIME) && decide (b ≥ STD_WORK_END_TIME)
  | _, _ => false

/-- Whether one leave covers the morning (lines 743-744):
explicit morning half-day label, or a span from at/before 09:00 to at/after
noon. -/
def wdEntryM (l : WLeave) : Bool :=
  l.typ = MORNING_HALF_LEAVE_REASON ||
  (match l.lstart, l.lend with
   | some a, some b => decide (a ≤ STD_WORK_START_TIME) && decide (b ≥ STD_LUNCH_START_TIME)
   | _, _ => false)

/-- Whether one leave covers the afternoon (lines 747-748):
explicit afternoon half-day label, or a span from at/before 13:00 to at/after
18:00. -/
def wdEntryA (l : WLeave) : Bool :=
  l.typ = AFTERNOON_HALF_LEAVE_REASON ||
  (match l.lstart, l.lend with
   | some a, some b => decide (a ≤ STD_LUNCH_END_TIME) && decide (b ≥ STD_WORK_END_TIME)
   | _, _ => false)

/-- Loop state of the per-employee row scan of `work_day.py`. -/
structure WDState where
  excluded : Bool
  leaves : List WLeave
  att : Option AttRec
deriving DecidableEq

/-- One row of the collection loop (lines 686-723).  A leave row is appended;
if it alone spans the whole workday the employee is marked excluded and the
loop `break`s (so the attendance check of the same row and all later rows is
skipped).  An attendance row (`유형 == '출퇴근'`) wholly replaces the stored
attendance data ("Store the latest attendance data found"). -/
def wdStep (r : Row) (s : WDState) : WDState :=
  let s1 :=
    match wdLeaveOf r with
    | some l =>
      if wdFullSpan l then { s with leaves := s.leaves ++ [l], excluded := true }
      else { s with leaves := s.leaves ++ [l] }
    | none => s
  if s1.excluded then s1
  else if r.attType = ATTENDANCE_TYPE then
    { s1 with att := some ⟨r.clockIn, r.clockOut, r.rawIn, r.rawOut⟩ }
  else s1

/-- The row loop with early exit on exclusion. -/
def wdLoop : List Row → WDState → WDState
  | [], s => s
  | r :: rs, s =>
    let s1 := wdStep r s
    if s1.excluded then s1 else wdLoop rs s1

/-- Initial loop state (lines 680-683). -/
def wdInit : WDState := ⟨false, [], none⟩

/-- `is_fully_excluded` after the whole per-employee analysis (lines 686-761):
either the loop broke on a single full-span leave, or the combined leaves
cover both the morning and the afternoon (lines 727-751). -/
def wdClassifyEx (rows : List Row) : Bool :=
  let s := wdLoop rows wdInit
  if s.excluded then true
  else if s.leaves.isEmpty then false
  else s.leaves.any wdEntryM && s.leaves.any wdEntryA

/-- All leave entries of the employee's rows, with no early exit (what the
loop would collect if it never broke). -/
def wdAllLeaves (rows : List Row) : List WLeave := rows.filterMap wdLeaveOf

/-- The computed morning-coverage flag over all leave entries
(the `covers_morning` accumulation of lines 733-744, taken over every leave
row of the employee). -/
def wdCoversMorning (rows : List Row) : Bool := (wdAllLeaves rows).any wdEntryM

/-- The computed afternoon-coverage flag over all leave entries. -/
def wdCoversAfternoon (rows : List Row) : Bool := (wdAllLeaves rows).any wdEntryA

/-- The attendance record retained by the `work_day.py` loop. -/
def wdAttRec (rows : List Row) : Option AttRec := (wdLoop rows wdInit).att

/-! ## Robust time parsing

The three files carry three different `parse_time_robust` bodies.  `strptime`
is modelled by explicit field parsers: a numeric field accepts one or two
digits within its range, `:`/`-`/`/` and spaces are literal separators. -/

/-- First-of-two-options combinator (the `try/except ValueError: continue`
cascade over formats). -/
def opOr (a b : Option Nat) : Option Nat := match a with | some v => some v | none => b

/-- Numeric value of a digit list (most significant first). -/
def decVal (l : List Char) : Nat := l.foldl (fun a c => a * 10 + (c.toNat - 48)) 0

/-- A `strptime` numeric field: 1 to `maxLen` digits, value within
`[lo, hi]`. -/
def fieldNum (s : String) (maxLen lo hi : Nat) : Option Nat :=
  let l := s.data
  if l ≠ [] ∧ l.length ≤ maxLen ∧ l.all (·.isDigit) then
    let v := decVal l
    if lo ≤ v ∧ v ≤ hi then some v else none
  else none

/-- `strptime(s, "%H:%M:%S")`, as a second-of-day. -/
def parseHMS (s : String) : Option Nat :=
  match splitStr ':' s with
  | [h, m, sec] => do
    let hv ← fieldNum h 2 0 23
    let mv ← fieldNum m 2 0 59
    let sv ← fieldNum sec 2 0 59
    pure (hms hv mv sv)
  | _ => none

/-- `strptime(s, "%H:%M")`. -/
def parseHM (s : String) : Option Nat :=
  match splitStr ':' s with
  | [h, m] => do
    let hv ← fieldNum h 2 0 23
    let mv ← fieldNum m 2 0 59
    pure (hms hv mv 0)
  | _ => none

/-- `strptime(s, "%Y<sep>%m<sep>%d")` date validity (year up to 4 digits,
month 1-12, day 1-31); only validity matters where this is used. -/
def ymdOk (sep : Char) (s : String) : Bool :=
  match splitStr sep s with
  | [y, m, d] =>
    ((fieldNum y 4 0 9999).isSome && (fieldNum m 2 1 12).isSome &&
     (fieldNum d 2 1 31).isSome)
  | _ => false

/-- `strptime(s, "%Y<sep>%m<sep>%d %H:%M:%S")`, returning the time part. -/
def parseYmdHMS (sep : Char) (s : String) : Option Nat :=
  match splitStr ' ' s with
  | [d, t] => if ymdOk sep d then parseHMS t else none
  | _ => none

/-- The 12-hour formats `%I:%M[:%S] %p` (`%p` is case-insensitive). -/
def parse12 (s : String) : Option Nat :=
  match splitStr ' ' s with
  | [t, ap] =>
    let apU := String.mk (ap.data.map Char.toUpper)
    if apU = "AM" ∨ apU = "PM" then
      (match splitStr ':' t with
        | [h, m] => do
          let hv ← fieldNum h 2 1 12
          let mv ← fieldNum m 2 0 59
          pure (hms hv mv 0)
        | [h, m, sec] => do
          let hv ← fieldNum h 2 1 12
          let mv ← fieldNum m 2 0 59
          let sv ← fieldNum sec 2 0 59
          pure (hms hv mv sv)
        | _ => none).map
        fun base => base % hms 12 0 0 + if apU = "PM" then hms 12 0 0 else 0
    else none
  | _ => none

/-- `work_day_bot.py` `parse_time_robust` (lines 333-384), string pipeline.
The input value has already been stringified and tested against `''` at
line 334; this function performs the `strip()` of line 338 and the format
cascade of lines 355-384.

The numeric branch at lines 342-353 ("Excel stores time as fraction of a
day") is UNREACHABLE in the source: line 338 has already replaced `time_str`
by `str(time_str).strip()`, so the `isinstance(time_str, (float, int))` test
at line 342 is always false.  The embedding therefore routes every value
through the string pipeline, exactly as the source does.

Both terminal branches (lines 379-384) return `None`, differing only in log
level, so the tail of the cascade is a single `none`. -/
def parseTimeBotStr (s0 : String) : Option Nat :=
  let s := trimStr s0
  if s = "" then none
  else
    let viaDt := if s.data.contains ' ' && s.data.contains ':' then
        opOr (parseYmdHMS '-' s) (parseYmdHMS '/' s)
      else none
    opOr viaDt (opOr (parseHMS s) (opOr (parseHM s) (opOr (parse12 s)
      (let ds := s.data.filter (·.isDigit)
       if ds.length = 4 then
         let hv := decVal (ds.take 2)
         let mv := decVal (ds.drop 2)
         if hv ≤ 23 ∧ mv ≤ 59 then some (hms hv mv 0) else none
       else if ds.length = 6 then
         let hv := decVal (ds.take 2)
         let mv := decVal ((ds.drop 2).take 2)
         let sv := decVal (ds.drop 4)
         if hv ≤ 23 ∧ mv ≤ 59 ∧ sv ≤ 59 then some (hms hv mv sv) else none
       else none))))

/-- `work_day_bot.py` `parse_time_robust` on a string cell: the `== ''` test
of line 334 runs before the stringification/strip of line 338. -/
def parseTimeBotOfStr (s : String) : Option Nat :=
  if s = "" then none else parseTimeBotStr s

/-- `work_day_bot.py` `parse_time_robust` on a numeric (float/int) cell whose
Python `str()` is `r`: `pd.isna` is false, `time_str == ''` is false, the
value is not a `time`/`datetime` instance, so line 338 stringifies it and the
string pipeline runs on `r` (the numeric branch being dead, see
`parseTimeBotStr`). -/
def parseTimeBotOfNum (r : String) : Option Nat := parseTimeBotStr r

/-- `work_day.py` `parse_time_robust` (lines 262-291): only the
`'%Y-%m-%d %H:%M:%S'` datetime form (when the string has a space and a
colon), `%H:%M:%S` and `%H:%M` are attempted; both terminal branches
(lines 286-291) return `None`. -/
def parseTimeWdOfStr (s0 : String) : Option Nat :=
  let s := trimStr s0
  if s = "" then none
  else
    let viaDt := if s.data.contains ' ' && s.data.contains ':' then parseYmdHMS '-' s else none
    opOr viaDt (opOr (parseHMS s) (parseHM s))

/-! ## `work_day_mail_bot_headless.py` parsers with exception semantics
(lines 306-331)

In both functions the first line reads
`if pd.isna(x) or x == '-': return None; x = str(x).strip()` — in Python the
assignment belongs to the `if` suite and follows a `return`, so the
stringification NEVER runs.  A value that is not a string and survives the
`isinstance` tests therefore reaches `x.split(...)` as a non-string and
raises `AttributeError`. -/

/-- A parsed calendar date: either year-month-day from `strptime`, or the
`pd.to_datetime(n, unit='D', origin='1899-12-30')` conversion of a
spreadsheet serial number (kept symbolic; only reachability matters here). -/
inductive PyDate where
  | ymd (y m d : Nat)
  | serial (q : ℚ)
deriving DecidableEq

/-- A raw cell value as delivered by pandas: NaN/None, a string, a native
`datetime.time`, a native `datetime.date`, a native `datetime.datetime`
(date plus second-of-day), or a float (`ℚ` stands in for the float value; the
float's textual form is never consulted by the headless parsers because they
raise before stringifying). -/
inductive PyCell where
  | na
  | str (s : String)
  | time (t : Nat)
  | date (d : PyDate)
  | dtime (d : PyDate) (t : Nat)
  | num (q : ℚ)
deriving DecidableEq

/-- The exception outcome of the embedded Python code. -/
inductive PyError where
  | attributeError
deriving DecidableEq

/-- Headless `parse_time_robust` string pipeline (lines 310-315): each format
is tried on `time_str.split('.')[0]`. -/
def parseTimeHlStr (s : String) : Option Nat :=
  let s0 := (splitStr '.' s).headD ""
  opOr (parseHMS s0) (opOr (parseHM s0) (parseYmdHMS '-' s0))

/-- Headless `parse_time_robust` (lines 306-315).  String cells never raise;
a non-zero float (or a bare `date`) reaches `time_str.split('.')` as a
non-string and raises `AttributeError`; a zero float is falsy and returns
`None` at line 310. -/
def parseTimeHl : PyCell → Except PyError (Option Nat)
  | .na => .ok none
  | .str s => .ok (if s = "-" then none else if s = "" then none else parseTimeHlStr s)
  | .time t => .ok (some t)
  | .dtime _ t => .ok (some t)
  | .date _ => .error .attributeError
  | .num q => if q = 0 then .ok none else .error .attributeError

/-- Python `float(s)` on the decimal forms `[+|-]digits[.digits]`
(exponent and `inf`/`nan` spellings are omitted; they do not affect the
raising behaviour this model is used for). -/
def floatParse (s : String) : Option ℚ :=
  let t := (trimStr s).data
  let neg := leadsWith ['-'] t
  let body := if neg || leadsWith ['+'] t then t.drop 1 else t
  let signed : Nat → Nat → ℚ := fun n d => if neg then -(mkRat n d) else mkRat n d
  match chSplit '.' body with
  | [ip] =>
    if ip ≠ [] ∧ ip.all (·.isDigit) then some (signed (decVal ip) 1) else none
  | [ip, fp] =>
    if (ip ≠ [] ∨ fp ≠ []) ∧ ip.all (·.isDigit) ∧ fp.all (·.isDigit) then
      some (signed (decVal ip * 10 ^ fp.length + decVal fp) (10 ^ fp.length))
    else none
  | _ => none

/-- Headless `parse_date_robust` string pipeline (lines 322-329):
`'%Y-%m-%d'` on the part before the first space, then the Excel serial-number
range test `30000 < n < 60000`. -/
def parseDateHlStr (s : String) : Option PyDate :=
  let dp := (splitStr ' ' s).headD ""
  if ymdOk '-' dp then
    match splitStr '-' dp with
    | [y, m, d] => some (.ymd (decVal y.data) (decVal m.data) (decVal d.data))
    | _ => none
  else
    match floatParse dp with
    | some q => if 30000 < q ∧ q < 60000 then some (.serial q) else none
    | none => none

/-- Headless `parse_date_robust` (lines 317-331).  `isinstance(x, date)` is
true for both `date` and `datetime` values (datetime subclasses date). -/
def parseDateHl : PyCell → Except PyError (Option PyDate)
  | .na => .ok none
  | .str s => .ok (if s = "-" then none else if s = "" then none else parseDateHlStr s)
  | .date d => .ok (some d)
  | .dtime d _ => .ok (some d)
  | .time _ => .error .attributeError
  | .num q => if q = 0 then .ok none else .error .attributeError

/-! ## Column-resolution front end

Input-shape failures (missing sheet / missing required columns) are the only
terminal failure of `analyze_attendance`: the summary's `total_employees` is
set to the sentinel `-1` and a diagnostic string replaces the normal report.
The sheet itself is abstracted to its list of (flattened) column labels. -/

/-- Python `str.lower()` (identity on the Korean labels involved). -/
def lowerStr (s : String) : String := String.mk (s.data.map Char.toLower)

/-- Headless `column_mapping` (lines 376-382). -/
def COLUMN_MAPPING : List (String × List String) :=
  [("erp", ["ERP사번"]), ("name", ["이름"]), ("date", ["일자"]), ("dept", ["부서"]),
   ("type", ["근태_유형", "유형"]), ("category", ["근태_구분", "구분"]),
   ("clock_in_time", ["출퇴근_출근시간", "출근시간"]),
   ("clock_out_time", ["출퇴근_퇴근시간", "퇴근시간"]),
   ("leave_start_time", ["휴가/출장/교육 일시_시작시간", "시작시간"]),
   ("leave_end_time", ["휴가/출장/교육 일시_종료시간", "종료시간"])]

/-- Case-insensitive column lookup (headless lines 385-393). -/
def hlColFound (cols : List String) (potentials : List String) : Bool :=
  potentials.any fun n => cols.any fun c => lowerStr (trimStr n) = lowerStr c

/-- The `missing_cols` diagnostic entries (headless lines 394-395);
`dept` is optional. -/
def hlMissingCols (cols : List String) : List String :=
  (COLUMN_MAPPING.filter fun kv => kv.1 ≠ "dept" ∧ ¬ hlColFound cols kv.2).map
    fun kv => kv.1 ++ " (tried: " ++ joinWith ", " kv.2 ++ ")"

/-- Python `str(list_of_strings)` as used in the f-string of line 403. -/
def pyListRepr (cols : List String) : String :=
  "[" ++ joinWith ", " (cols.map fun c => "'" ++ c ++ "'") ++ "]"

/-- The `(total_employees, plain_text_report)` pair of a terminal front-end
outcome. -/
structure FrontResult where
  totalEmployees : Int
  report : String
deriving DecidableEq

/-- The sheet-not-found diagnostic (headless line 360). -/
def hlSheetMissingReport (dateStr sheetName : String) : String :=
  dateStr ++ " 분석 오류\n엑셀 시트 '" ++ sheetName ++ "'을 찾을 수 없습니다."

/-- The missing-columns diagnostic (headless line 403): it names each missing
column (with the labels tried) and then the full list of columns actually
found. -/
def hlColMissingReport (dateStr : String) (cols : List String) : String :=
  dateStr ++ " 분석 오류\n필수 컬럼 누락: " ++ joinWith ", " (hlMissingCols cols) ++
  "\n사용 가능한 컬럼: " ++ pyListRepr cols

/-- Headless front end (lines 353-404): missing sheet and missing required
columns both RETURN a result with the `-1` sentinel instead of raising.
A successful resolution continues into the classification modelled by
`classifyHeadless`; that continuation is represented by the `(0, "")`
placeholder here. -/
def analyzeFrontHl (sheet : Option (List String)) (sheetName dateStr : String) : FrontResult :=
  match sheet with
  | none => ⟨-1, hlSheetMissingReport dateStr sheetName⟩
  | some cols =>
    if hlMissingCols cols ≠ [] then ⟨-1, hlColMissingReport dateStr cols⟩
    else ⟨0, ""⟩

/-- The character class of `work_day.py` `escape_markdown` (line 320). -/
def escChars : List Char := "_*[]()~`>#+-=|\x7b\x7d.!".data

/-- `work_day.py` `escape_markdown` (lines 316-321). -/
def escMd (s : String) : String :=
  ⟨s.data.foldr (fun c acc => if c ∈ escChars then '\\' :: c :: acc else c :: acc) []⟩

/-- `re.match(r'\d{4}-\d{2}-\d{2}', col)` (work_day.py line 601): the string
starts with four digits, a dash, two digits, a dash, two digits. -/
def dateShaped (s : String) : Bool :=
  match s.data with
  | a :: b :: c :: d :: e :: f :: g :: h :: i :: j :: _ =>
    a.isDigit && b.isDigit && c.isDigit && d.isDigit && e = '-' &&
    f.isDigit && g.isDigit && h = '-' && i.isDigit && j.isDigit
  | _ => false

/-- Dynamic date-column discovery of `work_day.py` (lines 598-608), with the
positional fallback at index 5. -/
def wdFindDateCol (cols : List String) (targetDateStr : String) : Option String :=
  match cols.find? (fun c => dateShaped (trimStr c)) with
  | some c => some c
  | none =>
    match cols[5]? with
    | some c => if c = targetDateStr then some c else none
    | none => none

/-- `required_source_cols` of `work_day.py` (lines 588-596 plus the date
column appended at line 618), in dict insertion order. -/
def wdRequiredCols (dateCol : String) : List String :=
  ["서무원", "출퇴근", "정상", "Unnamed: 11", "Unnamed: 13", "Unnamed: 16", "Unnamed: 18", dateCol]

/-- The date-column-missing diagnostic of `work_day.py` (line 613). -/
def wdDateColMissingMsg (dateStr : String) : String :=
  "*" ++ escMd dateStr ++ " 분석 오류*\n엑셀 파일에서 날짜 컬럼을 찾을 수 없습니다\\."

/-- The missing-columns diagnostic of `work_day.py` (line 627): unlike the
headless variant it names only the missing columns — the available columns
are not part of the message. -/
def wdColMissingMsg (dateStr : String) (missing : List String) : String :=
  "*" ++ escMd dateStr ++ " 분석 오류*\n필수 엑셀 원본 컬럼 없음\\: `" ++
  escMd (joinWith ", " missing) ++ "`"

/-- `work_day.py` front end (lines 598-629): `some` is a terminal
input-shape failure (with the `-1` sentinel and the diagnostic that replaces
the normal report), `none` means column resolution succeeded. -/
def analyzeFrontWd (cols : List String) (dateStr : String) : Option FrontResult :=
  match wdFindDateCol cols dateStr with
  | none => some ⟨-1, wdDateColMissingMsg dateStr⟩
  | some dc =>
    let missing := (wdRequiredCols dc).filter (fun c => ¬ c ∈ cols)
    if missing ≠ [] then some ⟨-1, wdColMissingMsg dateStr missing⟩ else none

/-! ## `work_day.py` batch aggregation (lines 667-781)

`total_employees = len(grouped)` is set before the loop; a group whose name
is empty (or whitespace) is skipped by `continue` at lines 674-676, so it
produces no per-employee record and increments neither `target` nor
`excluded`.  Each processed group increments exactly one of the two. -/

/-- The aggregate state: summary counters plus the names for which a
per-employee record (detailed status or exclusion entry) was emitted. -/
structure WDAgg where
  total : Nat
  target : Nat
  excluded : Nat
  processed : List String
deriving DecidableEq

/-- One group of the employee loop (lines 673-781, counting effects only). -/
def wdAggStep (a : WDAgg) (g : String × List Row) : WDAgg :=
  if trimStr g.1 = "" then a
  else if wdClassifyEx g.2 then
    { a with excluded := a.excluded + 1, processed := a.processed ++ [g.1] }
  else { a with target := a.target + 1, processed := a.processed ++ [g.1] }

/-- The whole grouped batch: `total` is the number of groups (blank-name
group included); the loop then folds over the groups. -/
def wdAnalyzeGroups (groups : List (String × List Row)) : WDAgg :=
  groups.foldl wdAggStep ⟨groups.length, 0, 0, []⟩

/-- Stated from the spec's words ("the first non-null clock-in ... retained"):
the first non-null clock-in among the employee's attendance rows. -/
def specFirstClockIn (rows : List Row) : Option Nat :=
  (rows.filterMap fun r => if r.attType = NORMAL_WORK_TYPE then r.clockIn else none).head?

/-- Stated from the spec's words ("the last non-null clock-out ... retained"). -/
def specLastClockOut (rows : List Row) : Option Nat :=
  (rows.filterMap fun r => if r.attType = NORMAL_WORK_TYPE then r.clockOut else none).getLast?

/-- What `work_day.py` actually retains: the last attendance row, taken
wholesale (its clock-in and clock-out fields even when null). -/
def specLastAttRow (rows : List Row) : Option AttRec :=
  ((rows.filter fun r => r.attType = ATTENDANCE_TYPE).getLast?).map
    fun r => ⟨r.clockIn, r.clockOut, r.rawIn, r.rawOut⟩

/-! ## Derived characterizations and helper lemmas -/

/-- The status record exposes exactly the accumulated coverage flags. -/
theorem classifyCore_coversMorning (leaves : List LeaveEntry) (att : AttRec) :
    (classifyCore leaves att).coversMorning = hlCoversMorn leaves := by
  by_cases h : (hlCoversMorn leaves && hlCoversAft leaves) = true <;> simp [classifyCore, h]

theorem classifyCore_coversAfternoon (leaves : List LeaveEntry) (att : AttRec) :
    (classifyCore leaves att).coversAfternoon = hlCoversAft leaves := by
  by_cases h : (hlCoversMorn leaves && hlCoversAft leaves) = true <;> simp [classifyCore, h]

theorem classifyCore_isExcluded (leaves : List LeaveEntry) (att : AttRec) :
    (classifyCore leaves att).isExcluded = (hlCoversMorn leaves && hlCoversAft leaves) := by
  by_cases h : (hlCoversMorn leaves && hlCoversAft leaves) = true <;> simp [classifyCore, h]

theorem classifyCore_issues (leaves : List LeaveEntry) (att : AttRec)
    (h : (hlCoversMorn leaves && hlCoversAft leaves) = false) :
    (classifyCore leaves att).issues = hlIssues leaves att := by
  simp [classifyCore, h]

/-- A single-entry full-day span makes that entry cover the morning. -/
theorem wdFullSpan_entryM {l : WLeave} (h : wdFullSpan l = true) : wdEntryM l = true := by
  obtain ⟨typ, ls, le⟩ := l
  cases ls <;> cases le <;>
    simp_all [wdFullSpan, wdEntryM, STD_WORK_START_TIME, STD_WORK_END_TIME,
      STD_LUNCH_START_TIME, hms]
  refine Or.inr ?_
  omega

/-- A single-entry full-day span makes that entry cover the afternoon. -/
theorem wdFullSpan_entryA {l : WLeave} (h : wdFullSpan l = true) : wdEntryA l = true := by
  obtain ⟨typ, ls, le⟩ := l
  cases ls <;> cases le <;>
    simp_all [wdFullSpan, wdEntryA, STD_WORK_START_TIME, STD_WORK_END_TIME,
      STD_LUNCH_END_TIME, hms]
  refine Or.inr ?_
  omega

theorem wdAllLeaves_cons (r : Row) (rs : List Row) :
    wdAllLeaves (r :: rs) = (wdLeaveOf r).toList ++ wdAllLeaves rs := by
  simp only [wdAllLeaves, List.filterMap_cons]
  cases wdLeaveOf r <;> simp

/-- A step that hits a single full-span leave marks the employee excluded
(and the same-row attendance check is skipped). -/
theorem wdStep_break (r : Row) (s : WDState) (l : WLeave)
    (hl : wdLeaveOf r = some l) (hf : wdFullSpan l = true) :
    wdStep r s = ⟨true, s.leaves ++ [l], s.att⟩ := by
  unfold wdStep
  rw [hl]
  simp [hf]

/-- A step that does not hit a full-span leave: the leave (if any) is
appended, the exclusion flag stays down, and an attendance row replaces the
stored attendance data. -/
theorem wdStep_char (r : Row) (s : WDState) (hs : s.excluded = false)
    (hnf : (match wdLeaveOf r with | some l => wdFullSpan l | none => false) = false) :
    wdStep r s = ⟨false, s.leaves ++ (wdLeaveOf r).toList,
      if r.attType = ATTENDANCE_TYPE then some ⟨r.clockIn, r.clockOut, r.rawIn, r.rawOut⟩
      else s.att⟩ := by
  unfold wdStep
  cases hl : wdLeaveOf r with
  | none =>
    by_cases hA : r.attType = ATTENDANCE_TYPE <;> cases s <;> simp_all
  | some l =>
    rw [hl] at hnf
    by_cases hA : r.attType = ATTENDANCE_TYPE <;> cases s <;> simp_all [hnf]

/-- The loop's exclusion flag is exactly "some leave entry spans the whole
workday on its own" (the loop stops at the first such entry; if none exists
it never breaks). -/
theorem wdLoop_excluded (rows : List Row) (s : WDState) (hs : s.excluded = false) :
    (wdLoop rows s).excluded = (wdAllLeaves rows).any wdFullSpan := by
  induction rows generalizing s with
  | nil => simp [wdLoop, wdAllLeaves, hs]
  | cons r rs ih =>
    cases hl : wdLeaveOf r with
    | none =>
      have hst := wdStep_char r s hs (by rw [hl])
      simp only [wdLoop, hst]
      rw [if_neg (by decide)]
      rw [ih _ rfl]
      rw [wdAllLeaves_cons, hl]
      simp
    | some l =>
      cases hf : wdFullSpan l with
      | true =>
        have hst := wdStep_break r s l hl hf
        simp only [wdLoop, hst]
        rw [wdAllLeaves_cons, hl]
        simp [hf]
      | false =>
        have hst := wdStep_char r s hs (by rw [hl]; exact hf)
        simp only [wdLoop, hst]
        rw [if_neg (by decide)]
        rw [ih _ rfl]
        rw [wdAllLeaves_cons, hl]
        simp [hf]

/-- When no single leave spans the whole day, the loop never breaks: it
collects every leave entry, keeps the exclusion flag down, and the stored
attendance data is the fold of "last attendance row wins". -/
theorem wdLoop_state (rows : List Row) (s : WDState) (hs : s.excluded = false)
    (h : (wdAllLeaves rows).any wdFullSpan = false) :
    wdLoop rows s = ⟨false, s.leaves ++ wdAllLeaves rows,
      rows.foldl (fun acc r => if r.attType = ATTENDANCE_TYPE
        then some ⟨r.clockIn, r.clockOut, r.rawIn, r.rawOut⟩ else acc) s.att⟩ := by
  induction rows generalizing s with
  | nil =>
    cases s
    simp_all [wdLoop, wdAllLeaves]
  | cons r rs ih =>
    rw [wdAllLeaves_cons] at h
    have hsplit : (match wdLeaveOf r with | some l => wdFullSpan l | none => false) = false ∧
        (wdAllLeaves rs).any wdFullSpan = false := by
      cases hl : wdLeaveOf r with
      | none =>
        rw [hl] at h
        simp only [Option.toList_none, List.nil_append] at h
        exact ⟨rfl, h⟩
      | some l =>
        rw [hl] at h
        simp only [Option.toList_some, List.singleton_append, List.any_cons] at h
        rcases Bool.or_eq_false_iff.mp h with ⟨h1, h2⟩
        exact ⟨h1, h2⟩
    have hst := wdStep_char r s hs hsplit.1
    simp only [wdLoop, hst]
    rw [if_neg (by decide)]
    rw [ih _ rfl hsplit.2]
    rw [wdAllLeaves_cons]
    simp [List.append_assoc]

/-! ## Claim theorems -/

/-- C1: for every employee processed on the target date, the employee is
marked excluded iff the computed leave-coverage flags `coversMorning` and
`coversAfternoon` are both true, and exclusion is never derived by any other
route.  First conjunct: the headless classifier (`is_excluded` is set exactly
when `covers_morn and covers_aft`, lines 559-561).  Second conjunct: the
`work_day.py` classifier, whose extra single-entry early-exclusion route
(lines 706-713) coincides with the computed coverage flags taken over all of
the employee's leave entries. -/
theorem claim_C1 :
    (∀ rows : List Row, (classifyHeadless rows).isExcluded =
      ((classifyHeadless rows).coversMorning && (classifyHeadless rows).coversAfternoon)) ∧
    (∀ rows : List Row, wdClassifyEx rows =
      (wdCoversMorning rows && wdCoversAfternoon rows)) := by
  constructor
  · intro rows
    unfold classifyHeadless
    rw [classifyCore_isExcluded, classifyCore_coversMorning, classifyCore_coversAfternoon]
  · intro rows
    simp only [wdClassifyEx, wdCoversMorning, wdCoversAfternoon]
    by_cases h : (wdAllLeaves rows).any wdFullSpan = true
    · have he : (wdLoop rows wdInit).excluded = true := by
        rw [wdLoop_excluded rows wdInit rfl]
        exact h
      rw [he]
      obtain ⟨l, hmem, hspan⟩ := List.any_eq_true.mp h
      have hm : (wdAllLeaves rows).any wdEntryM = true :=
        List.any_eq_true.mpr ⟨l, hmem, wdFullSpan_entryM hspan⟩
      have ha : (wdAllLeaves rows).any wdEntryA = true :=
        List.any_eq_true.mpr ⟨l, hmem, wdFullSpan_entryA hspan⟩
      simp [hm, ha]
    · have h' : (wdAllLeaves rows).any wdFullSpan = false := by
        revert h
        cases (wdAllLeaves rows).any wdFullSpan <;> simp
      rw [wdLoop_state rows wdInit rfl h']
      cases hrl : wdAllLeaves rows with
      | nil => simp [wdInit]
      | cons a as => simp [wdInit, hrl]

/-- C2 (amended): the exact conservation law of the headless summary counts
(lines 676-692).  `clockedOut + missingOut` equals `clockedIn` only after
three correction terms: clocked-in target employees on afternoon leave with
no clock-out are in neither `clockedOut` nor `missingOut`; employees with a
clock-out but no clock-in are in `clockedOut` but not `clockedIn`; and
employees on morning leave with no clock-in, no afternoon leave and no
clock-out are counted in `missingOut` although they never clocked in. -/
theorem claim_C2 : ∀ sts : List EmployeeStatus,
    smClockedOut sts + smMissingOut sts +
      sts.countP (fun s => !s.isExcluded && s.hasClockIn && s.coversAfternoon && !s.hasClockOut) =
    smClockedIn sts +
      sts.countP (fun s => !s.isExcluded && s.hasClockOut && !s.hasClockIn) +
      sts.countP (fun s =>
        !s.isExcluded && !s.hasClockIn && s.coversMorning && !s.coversAfternoon && !s.hasClockOut) := by
  intro sts
  induction sts with
  | nil => rfl
  | cons s t ih =>
    simp only [smClockedOut, smMissingOut, smClockedIn, List.countP_cons] at ih ⊢
    obtain ⟨ex, cm, ca, tk, ld, hin, hout, its, ots, iss⟩ := s
    cases ex <;> cases cm <;> cases ca <;> cases hin <;> cases hout <;> simp_all <;> omega

/-- C2 counterexample: the claimed equality
`clockedOut + missingOut == clockedIn` fails for a single (hence never
double-counted) employee who clocked in at 09:00, is on afternoon half-day
leave, and has no clock-out: the counts are 0 + 0 ≠ 1.  Moreover
`missingOut` is not confined to employees who clocked in: an employee whose
only row is a morning half-day leave (no clock-in at all) is counted. -/
theorem claim_C2_counterexample :
    (smClockedOut [classifyHeadless
        [⟨"출퇴근", "정상", some 32400, none, none, none, "09:00:00", ""⟩,
         ⟨"법정휴가", "오후반차", none, none, none, none, "", ""⟩]] +
      smMissingOut [classifyHeadless
        [⟨"출퇴근", "정상", some 32400, none, none, none, "09:00:00", ""⟩,
         ⟨"법정휴가", "오후반차", none, none, none, none, "", ""⟩]] ≠
      smClockedIn [classifyHeadless
        [⟨"출퇴근", "정상", some 32400, none, none, none, "09:00:00", ""⟩,
         ⟨"법정휴가", "오후반차", none, none, none, none, "", ""⟩]]) ∧
    smMissingOut [classifyHeadless [⟨"법정휴가", "오전반차", none, none, none, none, "", ""⟩]] = 1 ∧
    (classifyHeadless [⟨"법정휴가", "오전반차", none, none, none, none, "", ""⟩]).hasClockIn = false := by
  decide

/-- Every configured full-day reason is a non-blank label distinct from the
dash placeholder and from both explicit half-day labels. -/
theorem fullDayReason_facts {cat : String} (h : cat ∈ FULL_DAY_REASONS) :
    cat ≠ "" ∧ cat ≠ "-" ∧ cat ≠ MORNING_HALF_LEAVE_REASON ∧ cat ≠ AFTERNOON_HALF_LEAVE_REASON := by
  fin_cases h <;> exact ⟨by decide, by decide, by decide, by decide⟩

/-- No leave activity type is the ordinary attendance type. -/
theorem leaveActivity_facts {typ : String} (h : typ ∈ LEAVE_ACTIVITY_TYPES) :
    typ ≠ NORMAL_WORK_TYPE := by
  fin_cases h <;> decide

/-- C3: a non-excluded employee with a leave entry of explicit category
`오전반차` (morning half-day leave) and an attendance record of clock-in
13:30:00, no clock-out: the expected start is 14:00, so no lateness issue is
raised, and the issue list is exactly `["퇴근 기록 없음"]`
(MISSING_CLOCK_OUT). -/
theorem claim_C3 (leaves : List LeaveEntry)
    (hmem : ∃ l ∈ leaves, l.lcat = MORNING_HALF_LEAVE_REASON)
    (hnex : (classifyCore leaves ⟨some (hms 13 30 0), none, "13:30:00", ""⟩).isExcluded = false) :
    hlExpStart leaves = hms 14 0 0 ∧
    (classifyCore leaves ⟨some (hms 13 30 0), none, "13:30:00", ""⟩).issues =
      ["퇴근 기록 없음"] := by
  obtain ⟨l, hl, hcat⟩ := hmem
  have hspec : hlSpecMorn leaves = true := by
    unfold hlSpecMorn
    exact List.any_eq_true.mpr ⟨l, hl, by simp [hcat]⟩
  have hcm : hlCoversMorn leaves = true := by
    unfold hlCoversMorn
    exact List.any_eq_true.mpr ⟨l, hl, by simp [entryCover, hcat]⟩
  have hca : hlCoversAft leaves = false := by
    rw [classifyCore_isExcluded] at hnex
    simpa [hcm] using hnex
  have hes : hlExpStart leaves = hms 14 0 0 := by
    simp [hlExpStart, hspec, STD_MORNING_LEAVE_WORK_START]
  refine ⟨hes, ?_⟩
  rw [classifyCore_issues _ _ (by simp [hca])]
  unfold hlIssues
  simp [hes, hca, hms]

/-- Witness for C3 at a single morning-half-day leave row. -/
theorem claim_C3_witness :
    (∃ l ∈ [(⟨"법정휴가", "오전반차", none, none, "법정휴가 (오전반차)"⟩ : LeaveEntry)],
      l.lcat = MORNING_HALF_LEAVE_REASON) ∧
    (classifyCore [⟨"법정휴가", "오전반차", none, none, "법정휴가 (오전반차)"⟩]
      ⟨some (hms 13 30 0), none, "13:30:00", ""⟩).isExcluded = false ∧
    (hlExpStart [⟨"법정휴가", "오전반차", none, none, "법정휴가 (오전반차)"⟩] = hms 14 0 0 ∧
     (classifyCore [⟨"법정휴가", "오전반차", none, none, "법정휴가 (오전반차)"⟩]
        ⟨some (hms 13 30 0), none, "13:30:00", ""⟩).issues = ["퇴근 기록 없음"]) :=
  ⟨by decide, by decide, claim_C3 _ (by decide) (by decide)⟩

/-- C4: an employee whose only row is a leave row with a category in the
configured full-day-reason set and no start/end times is classified as
covering both halves, excluded, with no issues, and the leave description is
the row's description followed by the `" (종일)"` (all-day) marker — in
particular it contains the category. -/
theorem claim_C4 (typ cat : String)
    (htyp : typ ∈ LEAVE_ACTIVITY_TYPES) (hcat : cat ∈ FULL_DAY_REASONS) :
    classifyHeadless [⟨typ, cat, none, none, none, none, "", ""⟩] =
      { isExcluded := true, coversMorning := true, coversAfternoon := true,
        tookLeave := true, leaveDetails := typ ++ " (" ++ cat ++ ")" ++ " (종일)",
        hasClockIn := false, hasClockOut := false,
        inTimeStr := "-", outTimeStr := "-", issues := [] } := by
  obtain ⟨hne, hnd, hnm, hna⟩ := fullDayReason_facts hcat
  have hnw := leaveActivity_facts htyp
  simp [classifyHeadless, hlCollect, hlStep, mkLeave, htyp, hnw, hne, hnd,
    classifyCore, hlCoversMorn, hlCoversAft, entryCover, hnm, hna, hcat,
    hlLeaveDetail, hlDescs, sortedDedup, sortStr, insertStr, joinWith, hlFullDayType]

/-- Witness for C4 at the scenario's own literals (`법정휴가`/`연차`). -/
theorem claim_C4_witness :
    ("법정휴가" ∈ LEAVE_ACTIVITY_TYPES) ∧ ("연차" ∈ FULL_DAY_REASONS) ∧
    classifyHeadless [⟨"법정휴가", "연차", none, none, none, none, "", ""⟩] =
      { isExcluded := true, coversMorning := true, coversAfternoon := true,
        tookLeave := true, leaveDetails := "법정휴가" ++ " (" ++ "연차" ++ ")" ++ " (종일)",
        hasClockIn := false, hasClockOut := false,
        inTimeStr := "-", outTimeStr := "-", issues := [] } :=
  ⟨by decide, by decide, claim_C4 "법정휴가" "연차" (by decide) (by decide)⟩

theorem getLast?_cons_or {α : Type} (w : α) (l : List α) :
    (w :: l).getLast? = (l.getLast?).or (some w) := by
  cases l with
  | nil => simp
  | cons c t =>
    rw [List.getLast?_cons_cons]
    cases hg : (c :: t).getLast? with
    | none => simp at hg
    | some v => simp

theorem hlCollect_clockIn_aux (rows : List Row) (acc : List LeaveEntry × AttRec) :
    (rows.foldl hlStep acc).2.clockIn =
      (acc.2.clockIn).or
        (rows.filterMap fun r =>
          if r.attType = NORMAL_WORK_TYPE then r.clockIn else none).head? := by
  induction rows generalizing acc with
  | nil => simp [Option.or_none]
  | cons r rs ih =>
    rw [List.foldl_cons, ih, List.filterMap_cons]
    by_cases hA : r.attType = NORMAL_WORK_TYPE
    · rw [if_pos hA]
      cases hin : r.clockIn with
      | none =>
        have h1 : (hlStep acc r).2.clockIn = acc.2.clockIn := by
          unfold hlStep
          simp [hA, hin]
          split <;> rfl
        rw [h1]
      | some w =>
        cases hacc : acc.2.clockIn with
        | none =>
          have h1 : (hlStep acc r).2.clockIn = some w := by
            unfold hlStep
            simp [hA, hin, hacc]
            split <;> rfl
          rw [h1]
          simp
        | some v =>
          have h1 : (hlStep acc r).2.clockIn = some v := by
            unfold hlStep
            simp [hA, hin, hacc]
            split <;> simp [hacc]
          rw [h1]
          simp
    · rw [if_neg hA]
      have h1 : (hlStep acc r).2.clockIn = acc.2.clockIn := by
        unfold hlStep
        simp [hA]
      rw [h1]

theorem hlCollect_clockOut_aux (rows : List Row) (acc : List LeaveEntry × AttRec) :
    (rows.foldl hlStep acc).2.clockOut =
      ((rows.filterMap fun r =>
          if r.attType = NORMAL_WORK_TYPE then r.clockOut else none).getLast?).or
        acc.2.clockOut := by
  induction rows generalizing acc with
  | nil => simp
  | cons r rs ih =>
    rw [List.foldl_cons, ih, List.filterMap_cons]
    by_cases hA : r.attType = NORMAL_WORK_TYPE
    · rw [if_pos hA]
      cases hout : r.clockOut with
      | none =>
        have h1 : (hlStep acc r).2.clockOut = acc.2.clockOut := by
          unfold hlStep
          simp [hA, hout]
          split <;> rfl
        rw [h1]
      | some w =>
        have h1 : (hlStep acc r).2.clockOut = some w := by
          unfold hlStep
          simp [hA, hout]
        rw [h1]
        show ((rs.filterMap fun r =>
            if r.attType = NORMAL_WORK_TYPE then r.clockOut else none).getLast?).or (some w) =
          ((w :: rs.filterMap fun r =>
            if r.attType = NORMAL_WORK_TYPE then r.clockOut else none).getLast?).or
            acc.2.clockOut
        rw [getLast?_cons_or, Option.or_assoc]
        simp
    · rw [if_neg hA]
      have h1 : (hlStep acc r).2.clockOut = acc.2.clockOut := by
        unfold hlStep
        simp [hA]
      rw [h1]

theorem wdAttFold_eq (rows : List Row) (a : Option AttRec) :
    rows.foldl (fun acc r => if r.attType = ATTENDANCE_TYPE
      then some ⟨r.clockIn, r.clockOut, r.rawIn, r.rawOut⟩ else acc) a =
    (((rows.filter fun r => r.attType = ATTENDANCE_TYPE).getLast?).map
      (fun r => (⟨r.clockIn, r.clockOut, r.rawIn, r.rawOut⟩ : AttRec))).or a := by
  induction rows generalizing a with
  | nil => simp
  | cons r rs ih =>
    rw [List.foldl_cons, ih]
    by_cases hA : r.attType = ATTENDANCE_TYPE
    · rw [List.filter_cons_of_pos (by simpa using hA), if_pos hA, getLast?_cons_or]
      cases hg : (rs.filter fun r => r.attType = ATTENDANCE_TYPE).getLast? <;> simp
    · rw [List.filter_cons_of_neg (by simpa using hA), if_neg hA]

/-- C5 (amended): in `work_day_mail_bot_headless.py` (lines 522-528) the
retained attendance record does hold the first non-null clock-in and the last
non-null clock-out of the employee's attendance rows; in `work_day.py`
(lines 715-723) each attendance row wholly replaces the stored data, so
(absent a full-span-leave break) the retained record is the last attendance
row taken wholesale — an earlier non-null clock-in or clock-out is
discarded. -/
theorem claim_C5 :
    (∀ rows : List Row,
      (hlCollect rows).2.clockIn = specFirstClockIn rows ∧
      (hlCollect rows).2.clockOut = specLastClockOut rows) ∧
    (∀ rows : List Row, (wdAllLeaves rows).any wdFullSpan = false →
      wdAttRec rows = specLastAttRow rows) := by
  constructor
  · intro rows
    constructor
    · rw [hlCollect, hlCollect_clockIn_aux]
      rfl
    · rw [hlCollect, hlCollect_clockOut_aux, specLastClockOut]
      cases (rows.filterMap fun r =>
          if r.attType = NORMAL_WORK_TYPE then r.clockOut else none).getLast? <;> simp
  · intro rows h
    rw [wdAttRec, wdLoop_state rows wdInit rfl h]
    show rows.foldl _ wdInit.att = _
    rw [wdAttFold_eq, specLastAttRow]
    cases (rows.filter fun r => r.attType = ATTENDANCE_TYPE).getLast? <;> simp [wdInit]

/-- C5 counterexample: two attendance rows — the first with clock-in 09:00
and no clock-out, the second with no clock-in and clock-out 18:00.  The first
non-null clock-in is 09:00, but the `work_day.py` loop retains the second row
wholesale, so the retained clock-in is null, refuting the claim for that
variant. -/
theorem claim_C5_counterexample :
    specFirstClockIn
      [⟨"출퇴근", "정상", some (hms 9 0 0), none, none, none, "09:00:00", ""⟩,
       ⟨"출퇴근", "정상", none, some (hms 18 0 0), none, none, "", "18:00:00"⟩] =
      some (hms 9 0 0) ∧
    wdAttRec
      [⟨"출퇴근", "정상", some (hms 9 0 0), none, none, none, "09:00:00", ""⟩,
       ⟨"출퇴근", "정상", none, some (hms 18 0 0), none, none, "", "18:00:00"⟩] =
      some ⟨none, some (hms 18 0 0), "", "18:00:00"⟩ ∧
    ¬ ((wdAttRec
        [⟨"출퇴근", "정상", some (hms 9 0 0), none, none, none, "09:00:00", ""⟩,
         ⟨"출퇴근", "정상", none, some (hms 18 0 0), none, none, "", "18:00:00"⟩]).map
          AttRec.clockIn =
        some (specFirstClockIn
          [⟨"출퇴근", "정상", some (hms 9 0 0), none, none, none, "09:00:00", ""⟩,
           ⟨"출퇴근", "정상", none, some (hms 18 0 0), none, none, "", "18:00:00"⟩])) := by
  decide

/-- Witness for C5's hypothesised conjunct at the counterexample's rows. -/
theorem claim_C5_witness :
    ((wdAllLeaves
        [⟨"출퇴근", "정상", some (hms 9 0 0), none, none, none, "09:00:00", ""⟩,
         ⟨"출퇴근", "정상", none, some (hms 18 0 0), none, none, "", "18:00:00"⟩]).any
      wdFullSpan = false) ∧
    wdAttRec
      [⟨"출퇴근", "정상", some (hms 9 0 0), none, none, none, "09:00:00", ""⟩,
       ⟨"출퇴근", "정상", none, some (hms 18 0 0), none, none, "", "18:00:00"⟩] =
    specLastAttRow
      [⟨"출퇴근", "정상", some (hms 9 0 0), none, none, none, "09:00:00", ""⟩,
       ⟨"출퇴근", "정상", none, some (hms 18 0 0), none, none, "", "18:00:00"⟩] :=
  ⟨by decide, claim_C5.2 _ (by decide)⟩

/-- C6 (amended): a `출장` (business trip) leave entry with a start time and
no end time is treated as covering both the morning and the afternoon,
whatever the start time — provided its category is not one of the two
explicit half-day labels, which take precedence in the `elif` chain of
lines 542-552. -/
theorem claim_C6 (cat d : String) (s : Nat)
    (h1 : cat ≠ MORNING_HALF_LEAVE_REASON) (h2 : cat ≠ AFTERNOON_HALF_LEAVE_REASON) :
    entryCover ⟨"출장", cat, some s, none, d⟩ = (true, true) := by
  by_cases h3 : cat ∈ FULL_DAY_REASONS <;> simp [entryCover, h1, h2, h3]

/-- C6 counterexample: a business-trip entry with a start time, no end time,
and the explicit morning-half-day category covers only the morning, so the
claim (which requires full-day coverage for EVERY such entry regardless of
the other fields) fails. -/
theorem claim_C6_counterexample :
    (⟨"출장", "오전반차", some (hms 9 0 0), none, "출장 (오전반차)"⟩ : LeaveEntry).ltype = "출장" ∧
    (⟨"출장", "오전반차", some (hms 9 0 0), none, "출장 (오전반차)"⟩ : LeaveEntry).lstart.isSome = true ∧
    (⟨"출장", "오전반차", some (hms 9 0 0), none, "출장 (오전반차)"⟩ : LeaveEntry).lend = none ∧
    entryCover ⟨"출장", "오전반차", some (hms 9 0 0), none, "출장 (오전반차)"⟩ ≠ (true, true) := by
  decide

/-- Witness for C6 at a 17:00 start ("regardless of the start time"). -/
theorem claim_C6_witness :
    ("-" ≠ MORNING_HALF_LEAVE_REASON) ∧ ("-" ≠ AFTERNOON_HALF_LEAVE_REASON) ∧
    entryCover ⟨"출장", "-", some (hms 17 0 0), none, "출장"⟩ = (true, true) :=
  ⟨by decide, by decide, claim_C6 "-" "출장" (hms 17 0 0) (by decide) (by decide)⟩

/-- C7: the supported string encodings of 09:05:00 all parse to the same
value in `work_day_bot.py`, but the fractional-day spreadsheet number does
NOT: the numeric branch of `parse_time_robust` (lines 342-353) sits after
the `str()` conversion of line 338 and is unreachable, so the stringified
float `"0.3784722222"` (= 09:05:00 as a fraction of a day) falls through
every string format and yields `None`.  `work_day.py`'s variant also lacks
the bare-digit format, so `"0905"` yields `None` there. -/
theorem claim_C7 :
    parseTimeBotOfStr "09:05:00" = some (hms 9 5 0) ∧
    parseTimeBotOfStr "09:05" = some (hms 9 5 0) ∧
    parseTimeBotOfStr "0905" = some (hms 9 5 0) ∧
    parseTimeBotOfStr "09:05:00 AM" = some (hms 9 5 0) ∧
    parseTimeBotOfStr "2026-10-12 09:05:00" = some (hms 9 5 0) ∧
    parseTimeBotOfNum "0.3784722222" = none ∧
    parseTimeWdOfStr "0905" = none ∧
    parseTimeWdOfStr "09:05:00" = some (hms 9 5 0) := by
  decide

/-- C8: the headless parsers never raise on STRING cells, but the one-line
`if pd.isna(x) or x == '-': return None; x = str(x).strip()` places the
stringification inside the `if` suite after a `return`, so it never runs: a
non-zero float cell reaches `x.split(...)` as a float and raises
`AttributeError` in both `parse_time_robust` and `parse_date_robust`. -/
theorem claim_C8 :
    (∀ s : String, ∃ o, parseTimeHl (.str s) = .ok o) ∧
    (∀ s : String, ∃ o, parseDateHl (.str s) = .ok o) ∧
    parseTimeHl (.num (mkRat 1 2)) = .error .attributeError ∧
    parseDateHl (.num (mkRat 1 2)) = .error .attributeError := by
  refine ⟨fun s => ⟨_, rfl⟩, fun s => ⟨_, rfl⟩, ?_, ?_⟩
  · simp [parseTimeHl]
  · simp [parseDateHl]

theorem leadsWith_self (l : List Char) : leadsWith l l = true := by
  induction l with
  | nil => rfl
  | cons a as ih => simp [leadsWith, ih]

theorem occursIn_append_self (pre pat : List Char) : occursIn pat (pre ++ pat) = true := by
  induction pre with
  | nil =>
    cases pat with
    | nil => rfl
    | cons c cs => simp [occursIn, leadsWith_self]
  | cons a as ih => simp [occursIn, ih]

/-- C9 (amended): a missing sheet or missing required columns make
`analyze_attendance` RETURN a result carrying the `-1` sentinel and a single
diagnostic in place of the normal report.  In the headless variant the
missing-column diagnostic names the missing columns and then the full list
of columns actually found (the `pyListRepr cols` suffix); in the
`work_day.py` variant the diagnostic names only the missing columns. -/
theorem claim_C9 :
    (∀ sheetName dateStr : String,
      analyzeFrontHl none sheetName dateStr =
        ⟨-1, hlSheetMissingReport dateStr sheetName⟩) ∧
    (∀ (cols : List String) (sheetName dateStr : String), hlMissingCols cols ≠ [] →
      analyzeFrontHl (some cols) sheetName dateStr =
          ⟨-1, hlColMissingReport dateStr cols⟩ ∧
        occursIn (pyListRepr cols).data (hlColMissingReport dateStr cols).data = true) ∧
    (∀ (cols : List String) (dateStr dc : String), wdFindDateCol cols dateStr = some dc →
      (wdRequiredCols dc).filter (fun c => ¬ c ∈ cols) ≠ [] →
      analyzeFrontWd cols dateStr = some ⟨-1,
        wdColMissingMsg dateStr ((wdRequiredCols dc).filter (fun c => ¬ c ∈ cols))⟩) := by
  refine ⟨fun _ _ => rfl, ?_, ?_⟩
  · intro cols sN dS h
    refine ⟨by simp [analyzeFrontHl, h], ?_⟩
    show occursIn (pyListRepr cols).data
      (dS ++ " 분석 오류\n필수 컬럼 누락: " ++ joinWith ", " (hlMissingCols cols) ++
        "\n사용 가능한 컬럼: " ++ pyListRepr cols).data = true
    simp only [String.data_append]
    rw [List.append_assoc, List.append_assoc, List.append_assoc]
    rw [← List.append_assoc, ← List.append_assoc, ← List.append_assoc]
    exact occursIn_append_self _ _
  · intro cols dS dc hdc h
    simp only [analyzeFrontWd, hdc]
    rw [if_pos h]

/-- C9 counterexample: with available columns `["2025-01-01", "서무원"]` the
`work_day.py` variant fails on the other required columns, returns the `-1`
sentinel, but its diagnostic does not mention the found column `서무원` — it
does not name "the full set of columns actually found". -/
theorem claim_C9_counterexample :
    analyzeFrontWd ["2025-01-01", "서무원"] "2025-01-01" =
      some ⟨-1, wdColMissingMsg "2025-01-01"
        ["출퇴근", "정상", "Unnamed: 11", "Unnamed: 13", "Unnamed: 16", "Unnamed: 18"]⟩ ∧
    occursIn "서무원".data
      (wdColMissingMsg "2025-01-01"
        ["출퇴근", "정상", "Unnamed: 11", "Unnamed: 13", "Unnamed: 16", "Unnamed: 18"]).data =
      false := by
  decide

/-- Witness for C9 at concrete sheets/columns. -/
theorem claim_C9_witness :
    (analyzeFrontHl none "근태현황" "2025-01-01" =
      ⟨-1, hlSheetMissingReport "2025-01-01" "근태현황"⟩) ∧
    (hlMissingCols ["이름"] ≠ [] ∧
      (analyzeFrontHl (some ["이름"]) "근태현황" "2025-01-01" =
          ⟨-1, hlColMissingReport "2025-01-01" ["이름"]⟩ ∧
        occursIn (pyListRepr ["이름"]).data
          (hlColMissingReport "2025-01-01" ["이름"]).data = true)) ∧
    (wdFindDateCol ["2025-01-01", "서무원"] "2025-01-01" = some "2025-01-01" ∧
      (wdRequiredCols "2025-01-01").filter
        (fun c => ¬ c ∈ ["2025-01-01", "서무원"]) ≠ [] ∧
      analyzeFrontWd ["2025-01-01", "서무원"] "2025-01-01" = some ⟨-1,
        wdColMissingMsg "2025-01-01" ((wdRequiredCols "2025-01-01").filter
          (fun c => ¬ c ∈ ["2025-01-01", "서무원"]))⟩) :=
  ⟨claim_C9.1 "근태현황" "2025-01-01",
   ⟨by decide, claim_C9.2.1 ["이름"] "근태현황" "2025-01-01" (by decide)⟩,
   ⟨by decide, by decide,
    claim_C9.2.2 ["2025-01-01", "서무원"] "2025-01-01" "2025-01-01" (by decide) (by decide)⟩⟩

theorem filter_length_lt_of_mem_not {α : Type} (p : α → Bool) (l : List α) (x : α)
    (hx : x ∈ l) (hp : p x = false) : (l.filter p).length < l.length := by
  induction l with
  | nil => cases hx
  | cons a as ih =>
    rw [List.filter_cons]
    by_cases hax : p a = true
    · rw [if_pos hax]
      simp only [List.length_cons]
      rcases List.mem_cons.mp hx with rfl | hmem
      · rw [hp] at hax
        cases hax
      · exact Nat.succ_lt_succ (ih hmem)
    · rw [if_neg hax]
      simp only [List.length_cons]
      exact Nat.lt_succ_of_le (List.length_filter_le p as)

theorem wdAgg_fold (groups : List (String × List Row)) (a : WDAgg) :
    (groups.foldl wdAggStep a).total = a.total ∧
    (groups.foldl wdAggStep a).target + (groups.foldl wdAggStep a).excluded =
      a.target + a.excluded + (groups.filter fun g => ¬ (trimStr g.1 = "")).length ∧
    (groups.foldl wdAggStep a).processed =
      a.processed ++ (groups.filter fun g => ¬ (trimStr g.1 = "")).map Prod.fst := by
  induction groups generalizing a with
  | nil => simp
  | cons g gs ih =>
    rw [List.foldl_cons, List.filter_cons]
    by_cases hb : trimStr g.1 = ""
    · have hstep : wdAggStep a g = a := by simp [wdAggStep, hb]
      rw [hstep]
      simpa [hb] using ih a
    · rw [if_pos (by simpa using hb)]
      cases hex : wdClassifyEx g.2 with
      | true =>
        have hstep : wdAggStep a g =
            { a with excluded := a.excluded + 1, processed := a.processed ++ [g.1] } := by
          simp [wdAggStep, hb, hex]
        rw [hstep]
        obtain ⟨i1, i2, i3⟩ :=
          ih { a with excluded := a.excluded + 1, processed := a.processed ++ [g.1] }
        refine ⟨i1, ?_, ?_⟩
        · rw [i2]
          simp only [List.length_cons]
          omega
        · rw [i3]
          simp
      | false =>
        have hstep : wdAggStep a g =
            { a with target := a.target + 1, processed := a.processed ++ [g.1] } := by
          simp [wdAggStep, hb, hex]
        rw [hstep]
        obtain ⟨i1, i2, i3⟩ :=
          ih { a with target := a.target + 1, processed := a.processed ++ [g.1] }
        refine ⟨i1, ?_, ?_⟩
        · rw [i2]
          simp only [List.length_cons]
          omega
        · rw [i3]
          simp

/-- C10: when some group on the target date has a blank (empty or
whitespace) employee name, `work_day.py` counts it in `total_employees`
(`len(grouped)`) but the loop `continue`s past it, so it yields no
per-employee record and increments neither `target` nor `excluded`; thus
`target + excluded` equals the number of non-blank groups and falls strictly
short of `total_employees`, while the run still returns a complete result. -/
theorem claim_C10 (groups : List (String × List Row))
    (h : ∃ g ∈ groups, trimStr g.1 = "") :
    (wdAnalyzeGroups groups).total = groups.length ∧
    (wdAnalyzeGroups groups).target + (wdAnalyzeGroups groups).excluded =
      (groups.filter fun g => ¬ (trimStr g.1 = "")).length ∧
    (wdAnalyzeGroups groups).processed =
      (groups.filter fun g => ¬ (trimStr g.1 = "")).map Prod.fst ∧
    (wdAnalyzeGroups groups).target + (wdAnalyzeGroups groups).excluded <
      (wdAnalyzeGroups groups).total := by
  obtain ⟨i1, i2, i3⟩ := wdAgg_fold groups ⟨groups.length, 0, 0, []⟩
  unfold wdAnalyzeGroups
  refine ⟨i1, by simpa using i2, by simpa using i3, ?_⟩
  rw [i1, i2]
  simp only [Nat.zero_add]
  obtain ⟨g, hg, hgb⟩ := h
  exact filter_length_lt_of_mem_not _ groups g hg (by simp [hgb])

/-- Witness for C10 at a two-group batch with one blank name. -/
theorem claim_C10_witness :
    (∃ g ∈ [(("" : String), ([] : List Row)), (("김서무" : String), ([] : List Row))],
      trimStr g.1 = "") ∧
    ((wdAnalyzeGroups [("", []), ("김서무", [])]).total = 2 ∧
      (wdAnalyzeGroups [("", []), ("김서무", [])]).target +
        (wdAnalyzeGroups [("", []), ("김서무", [])]).excluded = 1 ∧
      (wdAnalyzeGroups [("", []), ("김서무", [])]).processed = ["김서무"] ∧
      (wdAnalyzeGroups [("", []), ("김서무", [])]).target +
        (wdAnalyzeGroups [("", []), ("김서무", [])]).excluded <
        (wdAnalyzeGroups [("", []), ("김서무", [])]).total) := by
  refine ⟨by decide, ?_⟩
  have h := claim_C10 [("", []), ("김서무", [])] (by decide)
  refine ⟨?_, ?_, ?_, h.2.2.2⟩
  · rw [h.1]
    rfl
  · rw [h.2.1]
    decide
  · rw [h.2.2.1]
    decide
